import Mathlib

/-!
Verification of the resilience-wrapped query execution pipeline of the
offshore-leaks MCP server: a shallow embedding of
`offshore_leaks_mcp/resilience.py` (circuit breaker, retry, error
classification, graceful shutdown) and `offshore_leaks_mcp/queries.py`
(parameterized predicate construction, common-connections query), together
with theorems settling the behavioural claims about them.

Python floats (timestamps, delays) are modelled as rationals; Python
exceptions as explicit `Except`/outcome values; the nondeterministic clock
and `random.random()` as explicit arguments.
-/

namespace OffshoreLeaks

/-! ## Python string primitives

The Python code relies on `str.lower()`, `str.endswith`, `str.replace`
and the `in` substring test.  These are re-implemented over `List Char`
(Lean's built-in counterparts do not reduce in the kernel), with Python's
semantics for ASCII strings. -/

/-- Model of Python `str.lower()` (ASCII). -/
def pyLower (s : String) : String := ⟨s.data.map Char.toLower⟩

/-- Model of Python `str.endswith(suffix)`. -/
def pyEndsWith (s suf : String) : Bool := suf.data.isSuffixOf s.data

/-- Replace every non-overlapping occurrence of `old` (scanning left to
right) by `new`, as Python `str.replace` does for a non-empty `old`. -/
def replaceList (old new : List Char) : List Char → List Char
  | [] => []
  | c :: rest =>
    if old ≠ [] ∧ old.isPrefixOf (c :: rest) then
      new ++ replaceList old new (rest.drop (old.length - 1))
    else
      c :: replaceList old new rest
termination_by l => l.length
decreasing_by
  · simp only [List.length_drop, List.length_cons]
    omega
  · simp only [List.length_cons]
    omega

/-- Model of Python `s.replace(old, new)`. -/
def pyReplace (s old new : String) : String := ⟨replaceList old.data new.data s.data⟩

/-- Boolean infix test on character lists. -/
def isInfixL (n : List Char) : List Char → Bool
  | [] => n.isEmpty
  | c :: rest => n.isPrefixOf (c :: rest) || isInfixL n rest

/-- Model of Python `needle in hay` on strings. -/
def pyInStr (needle hay : String) : Bool := isInfixL needle.data hay.data

/-! ## Python scalar values

Values flowing through condition maps and query parameter maps: `None`,
strings, integers and lists of strings. -/

/-- Scalar values as used by the query builder and query templates. -/
inductive PyVal : Type
  | none : PyVal
  | str (s : String) : PyVal
  | int (n : Int) : PyVal
  | strList (l : List String) : PyVal
deriving DecidableEq, Repr

/-- Model of Python `str(value)` on the values above. -/
def pyStr : PyVal → String
  | .none => "None"
  | .str s => s
  | .int n => toString n
  | .strList l => toString l

/-! ## resilience.py : error taxonomy and configuration -/

/-- `ErrorType` enumeration from `resilience.py`. -/
inductive ErrorType : Type
  | DATABASE_CONNECTION
  | QUERY_TIMEOUT
  | QUERY_ERROR
  | VALIDATION_ERROR
  | NETWORK_ERROR
  | RESOURCE_EXHAUSTION
  | UNKNOWN
deriving DecidableEq, Repr

/-- `RetryConfig` dataclass.  Floats are modelled as rationals. -/
structure RetryConfig : Type where
  max_attempts : Nat := 3
  base_delay : ℚ := 1
  max_delay : ℚ := 60
  exponential_base : ℚ := 2
  jitter : Bool := true
  backoff_strategy : String := "exponential"
deriving DecidableEq, Repr

/-- `CircuitBreakerConfig` dataclass (the `expected_exception` field, a
Python exception class defaulting to `Exception`, is not modelled: the
embedding treats every operation failure as an instance of it, which is
how the repository uses it). -/
structure CircuitBreakerConfig : Type where
  failure_threshold : Nat := 5
  recovery_timeout : ℚ := 60
deriving DecidableEq, Repr

/-- `CircuitBreakerState` enumeration. -/
inductive CircuitBreakerState : Type
  | CLOSED
  | OPEN
  | HALF_OPEN
deriving DecidableEq, Repr

/-- The `.value` string of a `CircuitBreakerState` member. -/
def CircuitBreakerState.value : CircuitBreakerState → String
  | .CLOSED => "closed"
  | .OPEN => "open"
  | .HALF_OPEN => "half_open"

/-- Mutable state of a `CircuitBreaker` instance. -/
structure CircuitBreaker : Type where
  config : CircuitBreakerConfig
  failure_count : Nat
  last_failure_time : Option ℚ
  state : CircuitBreakerState
deriving DecidableEq, Repr

/-- `CircuitBreaker.__init__`: closed, zero failures, no failure time. -/
def CircuitBreaker.init (config : CircuitBreakerConfig) : CircuitBreaker :=
  { config := config
    failure_count := 0
    last_failure_time := none
    state := .CLOSED }

/-- `CircuitBreaker.can_execute`, with the clock (`time.time()`) passed
explicitly.  Returns the boolean result together with the (possibly
updated) breaker, since the open→half-open transition mutates `state`. -/
def CircuitBreaker.can_execute (cb : CircuitBreaker) (now : ℚ) :
    Bool × CircuitBreaker :=
  match cb.state with
  | .CLOSED => (true, cb)
  | .OPEN =>
    match cb.last_failure_time with
    | some t =>
      if now - t ≥ cb.config.recovery_timeout then
        (true, { cb with state := .HALF_OPEN })
      else
        (false, cb)
    | Option.none => (false, cb)
  | .HALF_OPEN => (true, cb)

/-- `CircuitBreaker.record_success`. -/
def CircuitBreaker.record_success (cb : CircuitBreaker) : CircuitBreaker :=
  { cb with failure_count := 0, state := .CLOSED }

/-- `CircuitBreaker.record_failure`, with the clock passed explicitly. -/
def CircuitBreaker.record_failure (cb : CircuitBreaker) (now : ℚ) :
    CircuitBreaker :=
  let cb' := { cb with
    failure_count := cb.failure_count + 1
    last_failure_time := some now }
  if cb'.failure_count ≥ cb.config.failure_threshold then
    { cb' with state := .OPEN }
  else
    cb'

/-- Fold `record_failure` over a list of failure timestamps. -/
def CircuitBreaker.recordFailures (cb : CircuitBreaker) (ts : List ℚ) :
    CircuitBreaker :=
  ts.foldl CircuitBreaker.record_failure cb

/-! ## resilience.py : exceptions and backoff -/

/-- Exceptions relevant to the retry machinery: `RetryableError` and
`NonRetryableError` (each carrying a message and an `ErrorType`) and any
other Python exception, carrying only its message. -/
inductive PyExc : Type
  | RetryableError (msg : String) (error_type : ErrorType)
  | NonRetryableError (msg : String) (error_type : ErrorType)
  | Exc (msg : String)
deriving DecidableEq, Repr

/-- Model of Python `str(e)` for the exceptions above. -/
def PyExc.msg : PyExc → String
  | .RetryableError m _ => m
  | .NonRetryableError m _ => m
  | .Exc m => m

/-- `calculate_delay(attempt, config)` from `resilience.py`.  The value
drawn from `random.random()` (a float in `[0, 1)`) is passed explicitly
as `rnd`; it is ignored when `config.jitter` is off. -/
def calculate_delay (attempt : Nat) (config : RetryConfig) (rnd : ℚ) : ℚ :=
  let delay :=
    if config.backoff_strategy = "exponential" then
      config.base_delay * config.exponential_base ^ (attempt - 1)
    else if config.backoff_strategy = "linear" then
      config.base_delay * (attempt : ℚ)
    else
      config.base_delay
  let delay := min delay config.max_delay
  if config.jitter then delay * (1 / 2 + rnd * (1 / 2)) else delay

/-! ## resilience.py : retry_async

The decorated operation is modelled as `func : Nat → Except PyExc T`,
mapping the number of previous invocations to the outcome of the next
invocation.  The wrapper's run is summarised as the terminal outcome (a
returned value or a raised exception), the number of invocations of
`func`, and the number of backoff sleeps performed. -/

/-- Terminal outcome of a wrapped call: a returned value or a raised
exception. -/
inductive RetryOutcome (T : Type) : Type
  | success (v : T)
  | raised (e : PyExc)
deriving DecidableEq, Repr

/-- The `for attempt in range(1, max_attempts + 1)` loop of the wrapper
produced by `retry_async`.  Arguments after `func`: the remaining attempt
numbers, `last_exception`, invocations so far, sleeps so far. -/
def retryGo (config : RetryConfig) (func : Nat → Except PyExc T) :
    List Nat → Option PyExc → Nat → Nat → RetryOutcome T × Nat × Nat
  | [], last, inv, slept =>
    (.raised (last.getD (.Exc "All retry attempts failed")), inv, slept)
  | attempt :: rest, _, inv, slept =>
    match func inv with
    | .ok v => (.success v, inv + 1, slept)
    | .error (.NonRetryableError m t) =>
      (.raised (.NonRetryableError m t), inv + 1, slept)
    | .error (.Exc m) => (.raised (.Exc m), inv + 1, slept)
    | .error (.RetryableError m t) =>
      if attempt = config.max_attempts then
        (.raised (.RetryableError m t), inv + 1, slept)
      else
        retryGo config func rest (some (.RetryableError m t)) (inv + 1)
          (slept + 1)

/-- The wrapper produced by `retry_async(config)` applied to `func`. -/
def retry_async (config : RetryConfig) (func : Nat → Except PyExc T) :
    RetryOutcome T × Nat × Nat :=
  retryGo config func (List.range' 1 config.max_attempts) Option.none 0 0

/-! ## resilience.py : ErrorClassifier -/

/-- Keyword set for `DATABASE_CONNECTION` classification. -/
def connectionKeywords : List String :=
  ["connection refused", "connection failed", "network error",
   "connection lost", "connection timeout", "host unreachable"]

/-- Keyword set for `QUERY_TIMEOUT` classification. -/
def timeoutKeywords : List String := ["timeout", "timed out", "deadline exceeded"]

/-- Keyword set for `QUERY_ERROR` classification. -/
def queryErrorKeywords : List String :=
  ["syntax error", "invalid query", "constraint violation"]

/-- `ErrorClassifier.classify_database_error`, acting on the raised
exception's message (`str(error)`). -/
def classify_database_error (errMsg : String) : ErrorType :=
  let m := pyLower errMsg
  if connectionKeywords.any (fun k => pyInStr k m) then
    .DATABASE_CONNECTION
  else if timeoutKeywords.any (fun k => pyInStr k m) then
    .QUERY_TIMEOUT
  else if queryErrorKeywords.any (fun k => pyInStr k m) then
    .QUERY_ERROR
  else
    .UNKNOWN

/-- `ErrorClassifier.is_retryable`. -/
def is_retryable (e : PyExc) (error_type : ErrorType) : Bool :=
  match e with
  | .NonRetryableError _ _ => false
  | .RetryableError _ _ => true
  | .Exc _ =>
    match error_type with
    | .DATABASE_CONNECTION | .QUERY_TIMEOUT
    | .NETWORK_ERROR | .RESOURCE_EXHAUSTION => true
    | _ => false

/-! ## resilience.py : ResilienceManager -/

/-- The `retry_configs` mapping built by `ResilienceManager.__init__`
(fields not overridden there take the `RetryConfig` dataclass defaults). -/
def retry_configs : List (ErrorType × RetryConfig) :=
  [(.DATABASE_CONNECTION,
    { max_attempts := 5, base_delay := 2, max_delay := 30, exponential_base := 2 }),
   (.QUERY_TIMEOUT,
    { max_attempts := 3, base_delay := 1, max_delay := 10, exponential_base := 3 / 2 }),
   (.NETWORK_ERROR,
    { max_attempts := 4, base_delay := 3 / 2, max_delay := 20, exponential_base := 2 })]

/-- `ResilienceManager.get_retry_config`: look the error type up in
`retry_configs`, defaulting to `RetryConfig()`. -/
def get_retry_config (error_type : ErrorType) : RetryConfig :=
  ((retry_configs.lookup error_type).getD {})

/-- The body of `retryable_func` inside
`ResilienceManager.execute_with_resilience`: on any exception raised by
the (circuit-breaker-wrapped) operation, classify its message and re-wrap
it as retryable or non-retryable.  (The `record_error` bookkeeping only
feeds observability counters and is not modelled.) -/
def classifyWrap (m : String) : PyExc :=
  let classified := classify_database_error m
  if is_retryable (.Exc m) classified then
    .RetryableError m classified
  else
    .NonRetryableError m classified

/-- One attempt of the circuit-breaker-wrapped, classification-wrapped
operation inside `execute_with_resilience` (the branch where a configured
circuit breaker was selected by name).  The underlying operation is
`func : Nat → Except String T` (invocation count ↦ value or raised
message); `now` is the clock at this attempt.  Returns the attempt's
outcome, the updated breaker, and the updated invocation count. -/
def resilient_attempt (cb : CircuitBreaker) (now : ℚ)
    (func : Nat → Except String T) (inv : Nat) :
    Except PyExc T × CircuitBreaker × Nat :=
  let q := cb.can_execute now
  if q.1 then
    match func inv with
    | .ok v => (.ok v, q.2.record_success, inv + 1)
    | .error m => (.error (classifyWrap m), q.2.record_failure now, inv + 1)
  else
    (.error (classifyWrap ("Circuit breaker is " ++ q.2.state.value)), q.2, inv)

/-- The retry loop of `execute_with_resilience`, threading the circuit
breaker state.  Arguments after `times` (the clock at each attempt
number): remaining attempt numbers, `last_exception`, breaker,
invocations so far, sleeps so far. -/
def ewrGo (config : RetryConfig) (func : Nat → Except String T)
    (times : Nat → ℚ) :
    List Nat → Option PyExc → CircuitBreaker → Nat → Nat →
      RetryOutcome T × CircuitBreaker × Nat × Nat
  | [], last, cb, inv, slept =>
    (.raised (last.getD (.Exc "All retry attempts failed")), cb, inv, slept)
  | attempt :: rest, _, cb, inv, slept =>
    match resilient_attempt cb (times attempt) func inv with
    | (.ok v, cb', inv') => (.success v, cb', inv', slept)
    | (.error (.NonRetryableError m t), cb', inv') =>
      (.raised (.NonRetryableError m t), cb', inv', slept)
    | (.error (.Exc m), cb', inv') => (.raised (.Exc m), cb', inv', slept)
    | (.error (.RetryableError m t), cb', inv') =>
      if attempt = config.max_attempts then
        (.raised (.RetryableError m t), cb', inv', slept)
      else
        ewrGo config func times rest (some (.RetryableError m t)) cb'
          inv' (slept + 1)

/-- `ResilienceManager.execute_with_resilience` in the case where
`circuit_breaker_name` names a configured breaker `cb`, specialised to
the selected retry configuration `config = get_retry_config error_type`. -/
def execute_with_resilience (config : RetryConfig) (cb : CircuitBreaker)
    (func : Nat → Except String T) (times : Nat → ℚ) :
    RetryOutcome T × CircuitBreaker × Nat × Nat :=
  ewrGo config func times (List.range' 1 config.max_attempts) Option.none cb 0 0

/-! ## resilience.py : GracefulShutdown -/

/-- Abstraction of a registered shutdown hook: an identifier, the time
the coroutine takes before finishing or raising, and whether it raises. -/
structure Hook : Type where
  id : Nat
  duration : ℚ
  raisesExc : Bool
deriving DecidableEq, Repr

/-- Outcome of `asyncio.wait_for(hook(), timeout=slice)` as handled by
`GracefulShutdown.shutdown`: completed, timed out (slice exceeded), or
failed with an exception. -/
inductive HookResult : Type
  | completed
  | timedOut
  | failed
deriving DecidableEq, Repr

/-- Run one hook under its time slice. -/
def runHook (h : Hook) (slice : ℚ) : HookResult :=
  if h.duration > slice then .timedOut
  else if h.raisesExc then .failed
  else .completed

/-- State of a `GracefulShutdown` instance. -/
structure GracefulShutdown : Type where
  shutdown_hooks : List Hook
  is_shutting_down : Bool
deriving DecidableEq, Repr

/-- `GracefulShutdown.shutdown(timeout)`: no-op if already shutting
down; otherwise run every hook in reverse registration order, each
bounded by `timeout / len(hooks)`, recording each hook's outcome.
Returns the updated state and the executed trace. -/
def shutdown (gs : GracefulShutdown) (timeout : ℚ) :
    GracefulShutdown × List (Nat × HookResult) :=
  if gs.is_shutting_down then
    (gs, [])
  else
    ({ gs with is_shutting_down := true },
     gs.shutdown_hooks.reverse.map fun h =>
       (h.id, runHook h (timeout / (gs.shutdown_hooks.length : ℚ))))

/-! ## queries.py : QueryBuilder.build_where_conditions -/

/-- The acceptance test of the loop in `build_where_conditions`:
`value is not None and value != ""`. -/
def pyKeep : PyVal → Bool
  | .none => false
  | .str s => s ≠ ""
  | .int _ => true
  | .strList _ => true

/-- The body of the loop in `build_where_conditions` for one accepted
condition: dispatch on the field-name suffix and produce the comparison
text and the parameter value bound to `param_name`. -/
def condPart (node_var field : String) (v : PyVal) (param_name : String) :
    String × PyVal :=
  if pyEndsWith field "_contains" then
    ("toLower(" ++ node_var ++ "." ++ pyReplace field "_contains" "" ++
       ") CONTAINS toLower($" ++ param_name ++ ")",
     .str (pyStr v))
  else if pyEndsWith field "_from" then
    (node_var ++ "." ++ pyReplace field "_from" "" ++ " >= date($" ++
       param_name ++ ")",
     .str (pyStr v))
  else if pyEndsWith field "_to" then
    (node_var ++ "." ++ pyReplace field "_to" "" ++ " <= date($" ++
       param_name ++ ")",
     .str (pyStr v))
  else
    (node_var ++ "." ++ field ++ " = $" ++ param_name, v)

/-- The loop of `build_where_conditions`: walk the conditions in order
with the running `param_counter`, skipping `None`/empty values,
collecting `where_parts` and `parameters`.  (Python dicts preserve
insertion order, so the parameter map is an ordered association list.) -/
def bwcAux (node_var : String) :
    List (String × PyVal) → Nat → List String × List (String × PyVal)
  | [], _ => ([], [])
  | (field, v) :: rest, counter =>
    if pyKeep v then
      let pn := "param_" ++ toString counter
      let cp := condPart node_var field v pn
      let r := bwcAux node_var rest (counter + 1)
      (cp.1 :: r.1, (pn, cp.2) :: r.2)
    else
      bwcAux node_var rest counter

/-- `QueryBuilder.build_where_conditions(node_var, conditions, prefix)`
(the keyword `prefix` argument, defaulting to `"WHERE"`, is named `pfx`
here). -/
def build_where_conditions (node_var : String)
    (conditions : List (String × PyVal)) (pfx : String) :
    String × List (String × PyVal) :=
  let r := bwcAux node_var conditions 0
  (if r.1 ≠ [] then " " ++ pfx ++ " " ++ String.intercalate " AND " r.1
   else "",
   r.2)

/-- Rendering of surviving conditions as the specification words it: the
`i`-th surviving condition (0-based, counting from `i0`) is compared
against the freshly allocated slot `param_i`, and the parameter map binds
exactly those slots in order. -/
def renderConds (node_var : String) (i0 : Nat) :
    List (String × PyVal) → List String × List (String × PyVal)
  | [] => ([], [])
  | (field, v) :: rest =>
    let pn := "param_" ++ toString i0
    let cp := condPart node_var field v pn
    let r := renderConds node_var (i0 + 1) rest
    (cp.1 :: r.1, (pn, cp.2) :: r.2)

/-! ## queries.py : OffshoreLeaksQueries.find_common_connections -/

/-- Python `str.strip()` whitespace test (the characters occurring in
the query templates). -/
def isPyWs (c : Char) : Bool := c = ' ' || c = '\n' || c = '\t' || c = '\r'

/-- Model of Python `str.strip()`. -/
def pyStrip (s : String) : String :=
  ⟨((s.data.dropWhile isPyWs).reverse.dropWhile isPyWs).reverse⟩

/-- `OffshoreLeaksQueries.find_common_connections`: raises `ValueError`
(modelled as `Except.error`) when fewer than 2 node ids are supplied,
before any parameter map or query text is constructed; otherwise returns
the query plan (query text, parameter map). -/
def find_common_connections (node_ids : List String)
    (relationship_types : Option (List String)) (max_depth : Int)
    (limit : Int) : Except String (String × List (String × PyVal)) :=
  if node_ids.length < 2 then
    .error "At least 2 node IDs required for common connections"
  else
    let parameters : List (String × PyVal) :=
      [("node_ids", .strList node_ids),
       ("max_depth", .int max_depth),
       ("limit", .int limit),
       ("min_connections", .int (node_ids.length : Int))]
    let rel_filter :=
      match relationship_types with
      | some l => if l ≠ [] then ":" ++ String.intercalate "|" l else ""
      | Option.none => ""
    let query :=
      "\n        UNWIND $node_ids as node_id\n        MATCH (source \x7bnode_id: node_id\x7d)\n        MATCH (source)-[r" ++
      rel_filter ++
      "*1..$max_depth]-(common)\n        WHERE common.node_id NOT IN $node_ids\n        WITH common, collect(DISTINCT source.node_id) as connected_sources\n        WHERE size(connected_sources) >= $min_connections\n        MATCH (common)-[rel]-(neighbor)\n        RETURN common,\n               connected_sources,\n               size(connected_sources) as connection_count,\n               count(DISTINCT neighbor) as total_neighbors,\n               collect(DISTINCT type(rel)) as relationship_types\n        ORDER BY connection_count DESC, total_neighbors DESC\n        LIMIT $limit\n        "
    .ok (pyStrip query, parameters)

/-! ## Circuit breaker lemmas -/

theorem record_failure_config (cb : CircuitBreaker) (t : ℚ) :
    (cb.record_failure t).config = cb.config := by
  simp only [CircuitBreaker.record_failure]
  split <;> rfl

theorem record_failure_count (cb : CircuitBreaker) (t : ℚ) :
    (cb.record_failure t).failure_count = cb.failure_count + 1 := by
  simp only [CircuitBreaker.record_failure]
  split <;> rfl

theorem record_failure_last (cb : CircuitBreaker) (t : ℚ) :
    (cb.record_failure t).last_failure_time = some t := by
  simp only [CircuitBreaker.record_failure]
  split <;> rfl

theorem record_failure_state (cb : CircuitBreaker) (t : ℚ) :
    (cb.record_failure t).state =
      if cb.config.failure_threshold ≤ cb.failure_count + 1 then
        CircuitBreakerState.OPEN
      else cb.state := by
  simp only [CircuitBreaker.record_failure, ge_iff_le]
  split <;> rfl

theorem recordFailures_config (cb : CircuitBreaker) (ts : List ℚ) :
    (cb.recordFailures ts).config = cb.config := by
  induction ts generalizing cb with
  | nil => rfl
  | cons t ts ih =>
    show ((cb.record_failure t).recordFailures ts).config = cb.config
    rw [ih, record_failure_config]

theorem recordFailures_count (cb : CircuitBreaker) (ts : List ℚ) :
    (cb.recordFailures ts).failure_count = cb.failure_count + ts.length := by
  induction ts generalizing cb with
  | nil => rfl
  | cons t ts ih =>
    show ((cb.record_failure t).recordFailures ts).failure_count = _
    rw [ih, record_failure_count, List.length_cons]
    omega

theorem recordFailures_last (cb : CircuitBreaker) (ts : List ℚ) (τ : ℚ)
    (h : ts.getLast? = some τ) :
    (cb.recordFailures ts).last_failure_time = some τ := by
  induction ts generalizing cb with
  | nil => simp at h
  | cons t ts ih =>
    cases ts with
    | nil =>
      simp only [List.getLast?_singleton, Option.some.injEq] at h
      subst h
      exact record_failure_last cb t
    | cons t' ts' =>
      rw [List.getLast?_cons_cons] at h
      exact ih (cb.record_failure t) h

theorem recordFailures_state (cb : CircuitBreaker) (ts : List ℚ)
    (h : ts ≠ []) :
    (cb.recordFailures ts).state =
      if cb.config.failure_threshold ≤ cb.failure_count + ts.length then
        CircuitBreakerState.OPEN
      else cb.state := by
  induction ts generalizing cb with
  | nil => exact absurd rfl h
  | cons t ts ih =>
    cases ts with
    | nil =>
      show (cb.record_failure t).state = _
      rw [record_failure_state]
      simp
    | cons t' ts' =>
      show ((cb.record_failure t).recordFailures (t' :: ts')).state = _
      rw [ih (cb.record_failure t) (by simp), record_failure_config,
        record_failure_count, record_failure_state]
      simp only [List.length_cons]
      split_ifs <;> first | rfl | omega

/-- C1: starting from a freshly initialised breaker with
`failure_threshold = n ≥ 1` and `recovery_timeout = rt`, recording `n`
consecutive failures (at timestamps `ts`, the last at `τ`) opens the
circuit; while open, `can_execute` returns `false` (leaving the breaker
unchanged) whenever less than `rt` has elapsed since `τ`, and once at
least `rt` has elapsed the next `can_execute` returns `true` and moves
the state to half-open; from that half-open state `record_success`
yields a closed breaker with `failure_count = 0` and `record_failure`
re-opens the circuit; and `failure_count` is incremented by
`record_failure`, preserved by `can_execute`, and reset to `0` (only) by
`record_success`. -/
theorem circuitBreaker_lifecycle
    (n : Nat) (rt : ℚ) (hn : 1 ≤ n) (ts : List ℚ) (hlen : ts.length = n)
    (τ : ℚ) (hlast : ts.getLast? = some τ) :
    ((CircuitBreaker.init ⟨n, rt⟩).recordFailures ts).state = .OPEN ∧
    ((CircuitBreaker.init ⟨n, rt⟩).recordFailures ts).failure_count = n ∧
    ((CircuitBreaker.init ⟨n, rt⟩).recordFailures ts).last_failure_time = some τ ∧
    (∀ now : ℚ, now - τ < rt →
      ((CircuitBreaker.init ⟨n, rt⟩).recordFailures ts).can_execute now =
        (false, (CircuitBreaker.init ⟨n, rt⟩).recordFailures ts)) ∧
    (∀ now : ℚ, rt ≤ now - τ →
      (((CircuitBreaker.init ⟨n, rt⟩).recordFailures ts).can_execute now).1 = true ∧
      (((CircuitBreaker.init ⟨n, rt⟩).recordFailures ts).can_execute now).2.state = .HALF_OPEN ∧
      ((((CircuitBreaker.init ⟨n, rt⟩).recordFailures ts).can_execute now).2.record_success.state = .CLOSED ∧
        (((CircuitBreaker.init ⟨n, rt⟩).recordFailures ts).can_execute now).2.record_success.failure_count = 0) ∧
      (∀ t2 : ℚ,
        ((((CircuitBreaker.init ⟨n, rt⟩).recordFailures ts).can_execute now).2.record_failure t2).state = .OPEN)) ∧
    (∀ (cb : CircuitBreaker) (t2 : ℚ),
      (cb.record_failure t2).failure_count = cb.failure_count + 1) ∧
    (∀ (cb : CircuitBreaker) (now : ℚ),
      ((cb.can_execute now).2).failure_count = cb.failure_count) ∧
    (∀ cb : CircuitBreaker,
      cb.record_success.failure_count = 0 ∧ cb.record_success.state = .CLOSED) := by
  have hne : ts ≠ [] := by
    intro h
    rw [h] at hlast
    simp at hlast
  have hstate : ((CircuitBreaker.init ⟨n, rt⟩).recordFailures ts).state = .OPEN := by
    rw [recordFailures_state _ _ hne, hlen]
    simp [CircuitBreaker.init]
  have hcount : ((CircuitBreaker.init ⟨n, rt⟩).recordFailures ts).failure_count = n := by
    rw [recordFailures_count, hlen]
    simp [CircuitBreaker.init]
  have hconf : ((CircuitBreaker.init ⟨n, rt⟩).recordFailures ts).config = ⟨n, rt⟩ :=
    recordFailures_config _ _
  have hlastq : ((CircuitBreaker.init ⟨n, rt⟩).recordFailures ts).last_failure_time = some τ :=
    recordFailures_last _ _ _ hlast
  refine ⟨hstate, hcount, hlastq, ?_, ?_, ?_, ?_, ?_⟩
  · intro now hnow
    unfold CircuitBreaker.can_execute
    rw [hstate, hlastq, hconf]
    simp only [ge_iff_le]
    rw [if_neg (not_le.mpr hnow)]
  · intro now hnow
    have hce : ((CircuitBreaker.init ⟨n, rt⟩).recordFailures ts).can_execute now =
        (true, { (CircuitBreaker.init ⟨n, rt⟩).recordFailures ts with state := .HALF_OPEN }) := by
      unfold CircuitBreaker.can_execute
      rw [hstate, hlastq, hconf]
      simp only [ge_iff_le]
      rw [if_pos hnow, hconf, hlastq]
    refine ⟨by rw [hce], by rw [hce], ⟨by rw [hce]; rfl, by rw [hce]; rfl⟩, ?_⟩
    intro t2
    rw [hce, record_failure_state]
    simp only
    rw [hconf, hcount]
    simp only [CircuitBreakerConfig.mk.injEq]
    rw [if_pos (by omega)]
  · exact record_failure_count
  · intro cb now
    unfold CircuitBreaker.can_execute
    cases h : cb.state <;> simp only
    · cases hl : cb.last_failure_time <;> simp only
      split <;> rfl
  · intro cb
    exact ⟨rfl, rfl⟩

/-- Witness for C1: threshold 3, recovery timeout 10, failures recorded
at times 1, 2, 3: the breaker ends open with `failure_count = 3` and
`last_failure_time = 3`. -/
theorem circuitBreaker_lifecycle_witness :
    1 ≤ 3 ∧ ([(1 : ℚ), 2, 3].length = 3) ∧
    ([(1 : ℚ), 2, 3].getLast? = some 3) ∧
    ((CircuitBreaker.init ⟨3, 10⟩).recordFailures [1, 2, 3]).state = .OPEN ∧
    ((CircuitBreaker.init ⟨3, 10⟩).recordFailures [1, 2, 3]).failure_count = 3 ∧
    ((CircuitBreaker.init ⟨3, 10⟩).recordFailures [1, 2, 3]).last_failure_time =
      some 3 :=
  ⟨by decide, by rfl, by rfl,
   (circuitBreaker_lifecycle 3 10 (by decide) [1, 2, 3] (by rfl) 3 (by rfl)).1,
   (circuitBreaker_lifecycle 3 10 (by decide) [1, 2, 3] (by rfl) 3 (by rfl)).2.1,
   (circuitBreaker_lifecycle 3 10 (by decide) [1, 2, 3] (by rfl) 3
     (by rfl)).2.2.1⟩

/-! ## Retry lemmas -/

theorem retryGo_all_retryable {T : Type} (cfg : RetryConfig)
    (func : Nat → Except PyExc T) (msg : String) (et : ErrorType)
    (hfunc : ∀ k, func k = .error (.RetryableError msg et)) :
    ∀ (m a inv slept : Nat) (last : Option PyExc),
      a + m = cfg.max_attempts + 1 → 1 ≤ m →
      retryGo cfg func (List.range' a m) last inv slept =
        (.raised (.RetryableError msg et), inv + m, slept + (m - 1)) := by
  intro m
  induction m with
  | zero => omega
  | succ m ih =>
    intro a inv slept last ha hm1
    have hstep : retryGo cfg func (List.range' a (m + 1)) last inv slept =
        if a = cfg.max_attempts then
          (.raised (.RetryableError msg et), inv + 1, slept)
        else
          retryGo cfg func (List.range' (a + 1) m)
            (some (.RetryableError msg et)) (inv + 1) (slept + 1) := by
      show retryGo cfg func (a :: List.range' (a + 1) m) last inv slept = _
      simp only [retryGo, hfunc]
    rw [hstep]
    by_cases hcase : a = cfg.max_attempts
    · rw [if_pos hcase]
      have hm0 : m = 0 := by omega
      subst hm0
      simp
    · rw [if_neg hcase]
      cases m with
      | zero => omega
      | succ m' =>
        rw [ih (a + 1) (inv + 1) (slept + 1) (some (.RetryableError msg et))
          (by omega) (by omega)]
        simp only [Prod.mk.injEq, true_and]
        omega

/-- C2: for a retry configuration with `max_attempts = n ≥ 1`, the
wrapper produced by `retry_async` around an operation that raises a
retryable error with message `msg` on every invocation invokes the
operation exactly `n` times and raises the error of the last attempt,
whose message is `msg`, the original failure's message (sleeping `n - 1`
times in between). -/
theorem retry_exhaustion {T : Type} (cfg : RetryConfig) (n : Nat)
    (hmax : cfg.max_attempts = n) (hn : 1 ≤ n)
    (func : Nat → Except PyExc T) (msg : String) (et : ErrorType)
    (hfunc : ∀ k, func k = .error (.RetryableError msg et)) :
    retry_async cfg func = (.raised (.RetryableError msg et), n, n - 1) := by
  unfold retry_async
  rw [retryGo_all_retryable cfg func msg et hfunc cfg.max_attempts 1 0 0
    Option.none (by omega) (by omega), hmax]
  simp

/-- Witness for C2: with `max_attempts = 3` and an operation failing
with retryable error `"boom"` on every invocation, the wrapper invokes
it exactly 3 times and raises the retryable `"boom"` error. -/
theorem retry_exhaustion_witness :
    1 ≤ 3 ∧
    retry_async { max_attempts := 3 }
        (fun _ => Except.error (PyExc.RetryableError "boom" .UNKNOWN) :
          Nat → Except PyExc Unit) =
      (.raised (.RetryableError "boom" .UNKNOWN), 3, 2) :=
  ⟨by decide,
   retry_exhaustion { max_attempts := 3 } 3 rfl (by decide) _ "boom" .UNKNOWN
     (fun _ => rfl)⟩

/-- C3: for a retry configuration with `max_attempts ≥ 1`, if the
operation raises a non-retryable error on its first invocation, the
wrapper produced by `retry_async` invokes it exactly once, propagates
that error, and performs no backoff sleep. -/
theorem nonretryable_short_circuit {T : Type} (cfg : RetryConfig)
    (hmax : 1 ≤ cfg.max_attempts) (func : Nat → Except PyExc T)
    (msg : String) (et : ErrorType)
    (hfunc : func 0 = .error (.NonRetryableError msg et)) :
    retry_async cfg func = (.raised (.NonRetryableError msg et), 1, 0) := by
  obtain ⟨m, hm⟩ : ∃ m, cfg.max_attempts = m + 1 :=
    ⟨cfg.max_attempts - 1, by omega⟩
  unfold retry_async
  rw [hm]
  show retryGo cfg func (1 :: List.range' 2 m) Option.none 0 0 = _
  simp only [retryGo, hfunc]

/-- Witness for C3: with `max_attempts = 5` and an operation raising a
non-retryable `"bad"` error immediately, the wrapper invokes it exactly
once and sleeps zero times. -/
theorem nonretryable_short_circuit_witness :
    1 ≤ 5 ∧
    retry_async { max_attempts := 5 }
        (fun _ => Except.error (PyExc.NonRetryableError "bad" .UNKNOWN) :
          Nat → Except PyExc Unit) =
      (.raised (.NonRetryableError "bad" .UNKNOWN), 1, 0) :=
  ⟨by decide,
   nonretryable_short_circuit { max_attempts := 5 } (by decide) _ "bad"
     .UNKNOWN rfl⟩

/-! ## ResilienceManager fast-fail -/

/-- C4: when the selected circuit breaker is open and less than its
`recovery_timeout` has elapsed since the last recorded failure,
`execute_with_resilience` raises on the first attempt without ever
invoking the wrapped operation (invocation count 0), the raised error is
non-retryable (classified `UNKNOWN` from the message
`"Circuit breaker is open"`), so the retry loop performs no backoff
sleep and no further attempt, and the breaker is left unchanged. -/
theorem circuit_open_fast_fail {T : Type} (cfg : RetryConfig)
    (cb : CircuitBreaker) (func : Nat → Except String T) (times : Nat → ℚ)
    (τ : ℚ) (hstate : cb.state = .OPEN) (hlast : cb.last_failure_time = some τ)
    (helapsed : times 1 - τ < cb.config.recovery_timeout)
    (hmax : 1 ≤ cfg.max_attempts) :
    execute_with_resilience cfg cb func times =
      (.raised (.NonRetryableError "Circuit breaker is open" .UNKNOWN),
       cb, 0, 0) := by
  have hce : cb.can_execute (times 1) = (false, cb) := by
    unfold CircuitBreaker.can_execute
    rw [hstate, hlast]
    simp only [ge_iff_le]
    rw [if_neg (not_le.mpr helapsed)]
  have hwrap : classifyWrap "Circuit breaker is open" =
      .NonRetryableError "Circuit breaker is open" .UNKNOWN := by decide
  have hra : resilient_attempt cb (times 1) func 0 =
      (.error (.NonRetryableError "Circuit breaker is open" .UNKNOWN), cb, 0) := by
    simp only [resilient_attempt, hce, hstate]
    simp only [Bool.false_eq_true, if_false]
    rw [show CircuitBreakerState.OPEN.value = "open" from rfl]
    rw [show ("Circuit breaker is " ++ "open") = "Circuit breaker is open" from rfl]
    rw [hwrap]
  obtain ⟨m, hm⟩ : ∃ m, cfg.max_attempts = m + 1 :=
    ⟨cfg.max_attempts - 1, by omega⟩
  unfold execute_with_resilience
  rw [hm]
  show ewrGo cfg func times (1 :: List.range' 2 m) Option.none cb 0 0 = _
  simp only [ewrGo, hra]

/-- Witness for C4: a breaker with threshold 3 and recovery timeout 30,
opened at time 100, queried at time 110 (only 10 elapsed), under a
5-attempt retry policy: the wrapped operation is never invoked, no sleep
happens, and the non-retryable circuit-open error is raised at once. -/
theorem circuit_open_fast_fail_witness :
    ((fun _ => (110 : ℚ)) 1 - 100 < (30 : ℚ)) ∧ (1 ≤ 5) ∧
    execute_with_resilience { max_attempts := 5 }
        ⟨⟨3, 30⟩, 3, some 100, .OPEN⟩
        (fun _ => Except.ok () : Nat → Except String Unit)
        (fun _ => (110 : ℚ)) =
      (.raised (.NonRetryableError "Circuit breaker is open" .UNKNOWN),
       ⟨⟨3, 30⟩, 3, some 100, .OPEN⟩, 0, 0) :=
  ⟨by norm_num, by decide,
   circuit_open_fast_fail { max_attempts := 5 } ⟨⟨3, 30⟩, 3, some 100, .OPEN⟩
     _ _ 100 rfl rfl (by norm_num) (by decide)⟩

/-! ## QueryBuilder lemmas -/

theorem bwcAux_filter (nv : String) (conds : List (String × PyVal)) (c : Nat) :
    bwcAux nv conds c = bwcAux nv (conds.filter fun p => pyKeep p.2) c := by
  induction conds generalizing c with
  | nil => rfl
  | cons p rest ih =>
    obtain ⟨f, v⟩ := p
    by_cases hv : pyKeep v = true
    · simp only [bwcAux, List.filter_cons, hv, if_pos, ih]
    · simp only [bwcAux, List.filter_cons, hv]
      exact ih c

theorem bwcAux_renderConds (nv : String) (conds : List (String × PyVal))
    (c : Nat) (h : ∀ p ∈ conds, pyKeep p.2 = true) :
    bwcAux nv conds c = renderConds nv c conds := by
  induction conds generalizing c with
  | nil => rfl
  | cons p rest ih =>
    obtain ⟨f, v⟩ := p
    have hv : pyKeep v = true := h (f, v) (List.mem_cons_self _ _)
    simp only [bwcAux, renderConds, hv, if_pos]
    rw [ih (c + 1) fun q hq => h q (List.mem_cons_of_mem _ hq)]

theorem renderConds_length (nv : String) (c : Nat)
    (conds : List (String × PyVal)) :
    (renderConds nv c conds).1.length = conds.length ∧
    (renderConds nv c conds).2.length = conds.length := by
  induction conds generalizing c with
  | nil => exact ⟨rfl, rfl⟩
  | cons p rest ih =>
    obtain ⟨f, v⟩ := p
    simp only [renderConds, List.length_cons]
    exact ⟨by rw [(ih (c + 1)).1], by rw [(ih (c + 1)).2]⟩

theorem renderConds_param_names (nv : String) (c : Nat)
    (conds : List (String × PyVal)) :
    (renderConds nv c conds).2.map Prod.fst =
      (List.range' c conds.length).map (fun j => "param_" ++ toString j) := by
  induction conds generalizing c with
  | nil => rfl
  | cons p rest ih =>
    obtain ⟨f, v⟩ := p
    show ("param_" ++ toString c) ::
        (renderConds nv (c + 1) rest).2.map Prod.fst = _
    rw [ih (c + 1)]
    rfl

/-- C5: `build_where_conditions` is a total function (the embedding
raises no exception on any input), its output coincides with its output
on the conditions surviving the `None`/empty-string filter — so a
condition with value `None` or `""` contributes neither a comparison to
the predicate fragment nor an entry to the parameter map — and the
parameter map has exactly one entry per surviving condition. -/
theorem build_where_filtering (nv pfx : String)
    (conds : List (String × PyVal)) :
    build_where_conditions nv conds pfx =
      build_where_conditions nv (conds.filter fun p => pyKeep p.2) pfx ∧
    (build_where_conditions nv conds pfx).2.length =
      (conds.filter fun p => pyKeep p.2).length := by
  constructor
  · unfold build_where_conditions
    rw [bwcAux_filter]
  · unfold build_where_conditions
    rw [bwcAux_filter,
      bwcAux_renderConds nv _ 0 fun p hp => (List.mem_filter.mp hp).2]
    exact (renderConds_length nv 0 _).2

/-- C6 counterexample: on the single surviving condition
`status = "Active"` with variable `e`, the returned predicate fragment is
`" WHERE e.status = $param_0"` — it carries a leading space, so it is not
exactly `"WHERE e.status = $param_0"` as the claim states. -/
theorem build_where_leading_space :
    (build_where_conditions "e" [("status", PyVal.str "Active")] "WHERE").1 =
      " WHERE e.status = $param_0" ∧
    (build_where_conditions "e" [("status", PyVal.str "Active")] "WHERE").1 ≠
      "WHERE e.status = $param_0" := by
  decide

/-- C6 (amended): if no condition survives the `None`/empty filtering
the predicate fragment is the empty string; otherwise it is a single
space, the prefix (`"WHERE"` at every call site), another space, and the
surviving conditions' comparisons joined with `" AND "` in input order,
where the `i`-th surviving condition (0-based) compares against the
freshly allocated slot `param_i`; the returned parameter map binds
exactly the slots `param_0 … param_{k-1}` in order, one per surviving
condition. -/
theorem build_where_shape (nv pfx : String)
    (conds : List (String × PyVal)) :
    build_where_conditions nv conds pfx =
      (if (conds.filter fun p => pyKeep p.2) = [] then ""
       else " " ++ pfx ++ " " ++ String.intercalate " AND "
         (renderConds nv 0 (conds.filter fun p => pyKeep p.2)).1,
       (renderConds nv 0 (conds.filter fun p => pyKeep p.2)).2) ∧
    (build_where_conditions nv conds pfx).2.map Prod.fst =
      (List.range' 0 (conds.filter fun p => pyKeep p.2).length).map
        (fun j => "param_" ++ toString j) := by
  have hrw : bwcAux nv conds 0 =
      renderConds nv 0 (conds.filter fun p => pyKeep p.2) := by
    rw [bwcAux_filter,
      bwcAux_renderConds nv _ 0 fun p hp => (List.mem_filter.mp hp).2]
  have hbw : build_where_conditions nv conds pfx =
      (if (renderConds nv 0 (conds.filter fun p => pyKeep p.2)).1 ≠ [] then
         " " ++ pfx ++ " " ++ String.intercalate " AND "
           (renderConds nv 0 (conds.filter fun p => pyKeep p.2)).1
       else "",
       (renderConds nv 0 (conds.filter fun p => pyKeep p.2)).2) := by
    unfold build_where_conditions
    rw [hrw]
  constructor
  · rw [hbw]
    have hlen := (renderConds_length nv 0 (conds.filter fun p => pyKeep p.2)).1
    by_cases hf : (conds.filter fun p => pyKeep p.2) = []
    · rw [hf]
      rfl
    · have h1 : (renderConds nv 0 (conds.filter fun p => pyKeep p.2)).1 ≠ [] := by
        intro h
        rw [h] at hlen
        exact hf (List.length_eq_zero.mp hlen.symm)
      rw [if_pos h1, if_neg hf]
  · show (bwcAux nv conds 0).2.map Prod.fst = _
    rw [hrw, renderConds_param_names]

/-! ## Backoff delay -/

/-- C7: for every attempt number `a ≥ 1`: with jitter disabled,
`calculate_delay` returns `min (base_delay * m) max_delay` with
`m = exponential_base ^ (a - 1)` for the exponential strategy, `m = a`
for the linear strategy and `m = 1` for the fixed strategy; with jitter
enabled it returns exactly the unjittered (clamped) value scaled by
`1/2 + rnd/2`, a factor lying in `[1/2, 1]` for `rnd ∈ [0, 1)`, and the
result never exceeds `max_delay` (for nonnegative `base_delay`,
`max_delay` and `exponential_base`). -/
theorem calculate_delay_spec (a : Nat) (cfg : RetryConfig) (rnd : ℚ)
    (ha : 1 ≤ a) :
    (cfg.jitter = false →
      (cfg.backoff_strategy = "exponential" →
        calculate_delay a cfg rnd =
          min (cfg.base_delay * cfg.exponential_base ^ (a - 1)) cfg.max_delay) ∧
      (cfg.backoff_strategy = "linear" →
        calculate_delay a cfg rnd =
          min (cfg.base_delay * (a : ℚ)) cfg.max_delay) ∧
      (cfg.backoff_strategy = "fixed" →
        calculate_delay a cfg rnd =
          min (cfg.base_delay * 1) cfg.max_delay)) ∧
    (cfg.jitter = true →
      calculate_delay a cfg rnd =
        calculate_delay a { cfg with jitter := false } rnd *
          (1 / 2 + rnd * (1 / 2)) ∧
      (0 ≤ rnd → rnd < 1 →
        1 / 2 ≤ 1 / 2 + rnd * (1 / 2) ∧ 1 / 2 + rnd * (1 / 2) ≤ 1) ∧
      (0 ≤ rnd → rnd < 1 → 0 ≤ cfg.base_delay → 0 ≤ cfg.max_delay →
        0 ≤ cfg.exponential_base →
        calculate_delay a cfg rnd ≤ cfg.max_delay)) := by
  constructor
  · intro hjit
    refine ⟨?_, ?_, ?_⟩
    · intro hstrat
      simp only [calculate_delay, hjit, hstrat, Bool.false_eq_true, if_false,
        if_true]
    · intro hstrat
      simp only [calculate_delay, hjit, hstrat, Bool.false_eq_true, if_false,
        if_true]
      rw [if_neg (show ("linear" : String) ≠ "exponential" by decide)]
    · intro hstrat
      simp only [calculate_delay, hjit, hstrat, Bool.false_eq_true, if_false]
      rw [if_neg (show ("fixed" : String) ≠ "exponential" by decide),
        if_neg (show ("fixed" : String) ≠ "linear" by decide), mul_one]
  · intro hjit
    refine ⟨?_, ?_, ?_⟩
    · simp only [calculate_delay, hjit]
      rfl
    · intro h0 h1
      constructor <;> linarith
    · intro h0 h1 hbase hmax heb
      have key : ∀ d : ℚ, 0 ≤ d →
          min d cfg.max_delay * (1 / 2 + rnd * (1 / 2)) ≤ cfg.max_delay := by
        intro d hd
        have hu1 : 1 / 2 + rnd * (1 / 2) ≤ 1 := by linarith
        have hmin0 : 0 ≤ min d cfg.max_delay := le_min hd hmax
        calc min d cfg.max_delay * (1 / 2 + rnd * (1 / 2))
            ≤ min d cfg.max_delay * 1 :=
              mul_le_mul_of_nonneg_left hu1 hmin0
          _ = min d cfg.max_delay := mul_one _
          _ ≤ cfg.max_delay := min_le_right _ _
      simp only [calculate_delay, hjit, if_true]
      split_ifs with hs1 hs2
      · exact key _ (mul_nonneg hbase (pow_nonneg heb _))
      · exact key _ (mul_nonneg hbase (Nat.cast_nonneg a))
      · exact key _ hbase

/-- Witness for C7: attempt 2 under the default exponential policy with
jitter disabled yields `min (1 * 2^(2-1)) 60`; with jitter enabled and
`rnd = 0` the result is that value halved. -/
theorem calculate_delay_spec_witness :
    1 ≤ 2 ∧
    calculate_delay 2 { jitter := false } 0 =
      min ((1 : ℚ) * 2 ^ (2 - 1)) 60 ∧
    calculate_delay 2 { jitter := true } 0 =
      calculate_delay 2 { jitter := false } 0 * (1 / 2 + 0 * (1 / 2)) :=
  ⟨by decide,
   ((calculate_delay_spec 2 { jitter := false } 0 (by decide)).1 rfl).1 rfl,
   ((calculate_delay_spec 2 { jitter := true } 0 (by decide)).2 rfl).1⟩

/-! ## Graceful shutdown -/

/-- C8: on a not-yet-shutting-down handler with a non-empty hook list,
`shutdown(t)` executes exactly the registered hooks, each exactly once,
in reverse registration order, each bounded by the slice
`t / hook_count`; in particular the executed trace lists the hook ids in
reverse registration order, and every registered hook appears in the
trace with its own outcome — so a hook that raises or exceeds its slice
never prevents a later-running (earlier-registered) hook from
executing. -/
theorem graceful_shutdown_spec (gs : GracefulShutdown) (t : ℚ)
    (h1 : gs.is_shutting_down = false) (h2 : gs.shutdown_hooks ≠ []) :
    (shutdown gs t).2 = gs.shutdown_hooks.reverse.map
      (fun h => (h.id, runHook h (t / (gs.shutdown_hooks.length : ℚ)))) ∧
    (shutdown gs t).2.map Prod.fst = (gs.shutdown_hooks.map Hook.id).reverse ∧
    ∀ h ∈ gs.shutdown_hooks,
      (h.id, runHook h (t / (gs.shutdown_hooks.length : ℚ))) ∈
        (shutdown gs t).2 := by
  have htrace : (shutdown gs t).2 = gs.shutdown_hooks.reverse.map
      (fun h => (h.id, runHook h (t / (gs.shutdown_hooks.length : ℚ)))) := by
    unfold shutdown
    rw [h1]
    rfl
  refine ⟨htrace, ?_, ?_⟩
  · rw [htrace, List.map_map, ← List.map_reverse]
    rfl
  · intro h hh
    rw [htrace]
    exact List.mem_map_of_mem _ (List.mem_reverse.mpr hh)

/-- Witness for C8: three hooks registered as [H1, H2, H3] with H2
raising; the executed trace is [H3, H2, H1], so H1 (registered first,
run last) still executes after H2 fails. -/
theorem graceful_shutdown_spec_witness :
    (GracefulShutdown.mk [⟨1, 0, false⟩, ⟨2, 0, true⟩, ⟨3, 0, false⟩]
      false).is_shutting_down = false ∧
    (GracefulShutdown.mk [⟨1, 0, false⟩, ⟨2, 0, true⟩, ⟨3, 0, false⟩]
      false).shutdown_hooks ≠ [] ∧
    (shutdown (GracefulShutdown.mk
        [⟨1, 0, false⟩, ⟨2, 0, true⟩, ⟨3, 0, false⟩] false) 30).2.map
      Prod.fst = [3, 2, 1] :=
  ⟨rfl, by decide, by
    rw [(graceful_shutdown_spec (GracefulShutdown.mk
      [⟨1, 0, false⟩, ⟨2, 0, true⟩, ⟨3, 0, false⟩] false) 30 rfl
      (by decide)).2.1]
    decide⟩

/-! ## find_common_connections validation -/

/-- C9: `find_common_connections` fails validation (the embedded
`ValueError`) whenever fewer than 2 node ids are supplied, returning no
query plan; with at least 2 node ids no validation error is raised and a
query plan (query text and parameter map) is returned. -/
theorem find_common_connections_validation (node_ids : List String)
    (relationship_types : Option (List String)) (max_depth limit : Int) :
    (node_ids.length < 2 →
      find_common_connections node_ids relationship_types max_depth limit =
        .error "At least 2 node IDs required for common connections") ∧
    (2 ≤ node_ids.length →
      ∃ plan,
        find_common_connections node_ids relationship_types max_depth limit =
          .ok plan) := by
  constructor
  · intro h
    unfold find_common_connections
    rw [if_pos h]
  · intro h
    unfold find_common_connections
    rw [if_neg (by omega)]
    exact ⟨_, rfl⟩

/-- Witness for C9: a single node id fails validation with the
`ValueError` message; two node ids produce a query plan. -/
theorem find_common_connections_validation_witness :
    ["A"].length < 2 ∧
    find_common_connections ["A"] Option.none 2 20 =
      .error "At least 2 node IDs required for common connections" ∧
    2 ≤ ["A", "B"].length ∧
    (∃ plan, find_common_connections ["A", "B"] Option.none 2 20 = .ok plan) :=
  ⟨by decide,
   (find_common_connections_validation ["A"] Option.none 2 20).1 (by decide),
   by decide,
   (find_common_connections_validation ["A", "B"] Option.none 2 20).2
     (by decide)⟩

/-! ## Classifier range -/

/-- C10: `classify_database_error` only ever returns
`DATABASE_CONNECTION`, `QUERY_TIMEOUT`, `QUERY_ERROR` or `UNKNOWN` —
never `NETWORK_ERROR`, `RESOURCE_EXHAUSTION` or `VALIDATION_ERROR` —
while `ResilienceManager.__init__` installs a dedicated retry
configuration under the `NETWORK_ERROR` key; consequently the retry
configuration selected for a classified raw exception message is never
the `NETWORK_ERROR` configuration. -/
theorem classifier_range (msg : String) :
    (classify_database_error msg = .DATABASE_CONNECTION ∨
     classify_database_error msg = .QUERY_TIMEOUT ∨
     classify_database_error msg = .QUERY_ERROR ∨
     classify_database_error msg = .UNKNOWN) ∧
    classify_database_error msg ≠ .NETWORK_ERROR ∧
    classify_database_error msg ≠ .RESOURCE_EXHAUSTION ∧
    classify_database_error msg ≠ .VALIDATION_ERROR ∧
    retry_configs.lookup ErrorType.NETWORK_ERROR =
      some { max_attempts := 4, base_delay := 3 / 2, max_delay := 20,
             exponential_base := 2 } ∧
    get_retry_config (classify_database_error msg) ≠
      get_retry_config ErrorType.NETWORK_ERROR := by
  have h4 : classify_database_error msg = .DATABASE_CONNECTION ∨
      classify_database_error msg = .QUERY_TIMEOUT ∨
      classify_database_error msg = .QUERY_ERROR ∨
      classify_database_error msg = .UNKNOWN := by
    simp only [classify_database_error]
    split_ifs <;> simp
  refine ⟨h4, ?_, ?_, ?_, rfl, ?_⟩
  · rcases h4 with h | h | h | h <;> rw [h] <;> decide
  · rcases h4 with h | h | h | h <;> rw [h] <;> decide
  · rcases h4 with h | h | h | h <;> rw [h] <;> decide
  · rcases h4 with h | h | h | h <;> rw [h] <;>
      exact fun heq =>
        absurd (congrArg RetryConfig.max_attempts heq) (by decide)

end OffshoreLeaks
